import Mathlib

/-!
Verification of the authenticated forwarding layer of the distributed EHR UI
(`src/app.py`): session/token lifecycle, the route guard, backend request
construction, validation, and response normalization. Flask handlers are
embedded as pure Lean functions: the session, the submitted payload and the
backend's behaviour are explicit arguments; each handler returns its HTTP
response together with the list of backend calls it issued.
-/

namespace EhrUi

/-- JSON values, as produced by `request.get_json` / `response.json()`. -/
inductive Json where
  | null
  | bool (b : Bool)
  | num (n : Int)
  | str (s : String)
  | arr (elems : List Json)
  | obj (entries : List (String × Json))

/-- Python truthiness (`not x` is true exactly on falsy values) for a
decoded JSON value: `None`, `False`, `0`, `""`, `[]` and `{}` are falsy. -/
def Json.pyFalsy : Json → Bool
  | Json.null => true
  | Json.bool b => !b
  | Json.num n => n == 0
  | Json.str s => s == ""
  | Json.arr xs => xs.isEmpty
  | Json.obj kvs => kvs.isEmpty

mutual

/-- Python `str()` of a decoded JSON value, as interpolated by an f-string
such as `f"Bearer \x7btoken\x7d"` or the update URL. -/
def pyStr : Json → String
  | Json.null => "None"
  | Json.bool true => "True"
  | Json.bool false => "False"
  | Json.num n => toString n
  | Json.str s => s
  | Json.arr xs => "[" ++ pyReprSeq xs ++ "]"
  | Json.obj kvs => "\x7b" ++ pyReprEntries kvs ++ "\x7d"

/-- Python `repr()` of a decoded JSON value (used for container elements). -/
def pyRepr : Json → String
  | Json.null => "None"
  | Json.bool true => "True"
  | Json.bool false => "False"
  | Json.num n => toString n
  | Json.str s => "\x27" ++ s ++ "\x27"
  | Json.arr xs => "[" ++ pyReprSeq xs ++ "]"
  | Json.obj kvs => "\x7b" ++ pyReprEntries kvs ++ "\x7d"

/-- Comma-separated `repr()`s of list elements. -/
def pyReprSeq : List Json → String
  | [] => ""
  | [x] => pyRepr x
  | x :: xs => pyRepr x ++ ", " ++ pyReprSeq xs

/-- Comma-separated `repr()`s of dict entries. -/
def pyReprEntries : List (String × Json) → String
  | [] => ""
  | [(k, v)] => "\x27" ++ k ++ "\x27: " ++ pyRepr v
  | (k, v) :: kvs => "\x27" ++ k ++ "\x27: " ++ pyRepr v ++ ", " ++ pyReprEntries kvs

end

/-- `payload.get(k)`: the value stored under key `k`, if any. -/
def jsonGet (kvs : List (String × Json)) (k : String) : Option Json :=
  (kvs.find? (fun kv => kv.1 == k)).map Prod.snd

/-- `payload.get(k)` where a missing key yields Python `None` (JSON null). -/
def jsonGetD (kvs : List (String × Json)) (k : String) : Json :=
  (jsonGet kvs k).getD Json.null

/-- Python truthiness of a `payload.get(k)` result (`None` when absent). -/
def optPyFalsy : Option Json → Bool
  | none => true
  | some v => v.pyFalsy

/-- The Flask session for one caller. `none` means the key is absent;
`some v` means the key is present with stored value `v` (so a present but
falsy token is distinguished from an absent one, as in the source). -/
structure Session where
  access_token : Option Json := none
  role : Option Json := none

/-- The session right after `session.clear()` (and before any login). -/
def Session.empty : Session := { access_token := none, role := none }

/-- Body of an HTTP response from the backend: either it parses as JSON
(`res.json()` succeeds) or it is raw text (`res.json()` raises ValueError). -/
inductive HttpBody where
  | json (j : Json)
  | text (t : String)

/-- A raw backend HTTP response: status code and body. -/
structure HttpResponse where
  status : Nat
  body : HttpBody

/-- Outcome of one `requests.*` call: either the backend responded, or the
attempt raised `requests.RequestException` (connection failure / timeout). -/
inductive BackendResult where
  | ok (r : HttpResponse)
  | unreachable (cause : String)

/-- A record of one outbound HTTP request actually issued by a handler. -/
structure BackendCall where
  method : String
  url : String
  headers : List (String × String)
  body : Option Json

/-- A response returned by a Flask handler: a payload with a status code, a
redirect, or an uncaught exception propagating out of the handler (which
Flask turns into a 500 Internal Server Error). -/
inductive FlaskResponse where
  | payload (status : Nat) (body : HttpBody)
  | redirect (location : String)
  | uncaughtError (desc : String)

/-- The HTTP status code of a handler response: a payload carries its own
code, a Flask `redirect(...)` is 302, and an uncaught exception is 500. -/
def FlaskResponse.statusCode : FlaskResponse → Nat
  | FlaskResponse.payload st _ => st
  | FlaskResponse.redirect _ => 302
  | FlaskResponse.uncaughtError _ => 500

/-- `os.getenv("EHR_BASE_URL", "http://localhost:8001")` (default value). -/
def EHR_BASE_URL : String := "http://localhost:8001"

/-- Flask's `url_for`, restricted to the endpoints registered in `app.py`
(an endpoint name defaults to the view function's name). Returns the
route rule; `none` when no such endpoint exists, in which case werkzeug
raises `BuildError`. -/
def url_for : String → Option String
  | "list_routes" => some "/routes"
  | "home" => some "/"
  | "about_page" => some "/about"
  | "health" => some "/health"
  | "create_patient" => some "/client/patient/create"
  | "read_patient_data" => some "/client/patient/<patient_id>"
  | "update_patient" => some "/client/patient/update"
  | "delete_patient" => some "/client/patient/delete/<patient_id>"
  | "login_page" => some "/login"
  | "doctor_page" => some "/doctor"
  | "doctor_create_patient" => some "/doctor/create-patient"
  | "doctor_update_patient" => some "/doctor/update-patient"
  | "patient_page" => some "/patient"
  | "patient_access" => some "/patient/access"
  | "patient_update" => some "/patient/update"
  | "patient_logout" => some "/patient/logout"
  | "logout" => some "/logout"
  | _ => none

/-- `redirect(url_for(e))`: a redirect when the endpoint exists, otherwise
the uncaught `BuildError` that `url_for` raises. -/
def redirectEndpoint (e : String) : FlaskResponse :=
  match url_for e with
  | some u => FlaskResponse.redirect u
  | none => FlaskResponse.uncaughtError ("BuildError: " ++ e)

/-- The `login_required` decorator: if `"access_token" not in session`,
return `redirect(url_for("login"))` without invoking the wrapped handler;
otherwise invoke the handler. -/
def login_required (f : Session → FlaskResponse × List BackendCall)
    (s : Session) : FlaskResponse × List BackendCall :=
  match s.access_token with
  | none => (redirectEndpoint "login", [])
  | some _ => f s

/-- `auth_headers()`: `token = session.get("access_token")`; an absent or
falsy token yields `\x7b\x7d`, otherwise `\x7b"Authorization": f"Bearer \x7btoken\x7d"\x7d`. -/
def auth_headers (s : Session) : List (String × String) :=
  match s.access_token with
  | none => []
  | some t => if t.pyFalsy then [] else [("Authorization", "Bearer " ++ pyStr t)]

/-- The per-field test of `create_patient`'s validation:
`f not in payload or payload.get(f) in (None, "")`. -/
def fieldMissingOrEmpty (payload : List (String × Json)) (f : String) : Bool :=
  match jsonGet payload f with
  | none => true
  | some Json.null => true
  | some (Json.str s) => s == ""
  | some _ => false

/-- `required_fields = ["patient_id", "name", "birth_date"]`. -/
def requiredFields : List String := ["patient_id", "name", "birth_date"]

/-- The `missing` list computed by `create_patient`. -/
def missingFields (payload : List (String × Json)) : List String :=
  requiredFields.filter (fun f => fieldMissingOrEmpty payload f)

/-- The `patient_information` record forwarded by `create_patient`
(`recordId` is the generated `uuid4`, `now` the `datetime.now()` stamp). -/
def patient_information (payload : List (String × Json)) (recordId now : String) : Json :=
  Json.obj
    [("id", Json.str recordId),
     ("patient_id", jsonGetD payload "patient_id"),
     ("name", jsonGetD payload "name"),
     ("birth_date", jsonGetD payload "birth_date"),
     ("height", jsonGetD payload "height"),
     ("weight", jsonGetD payload "weight"),
     ("blood_type", jsonGetD payload "blood_type"),
     ("created_at", Json.str now)]

/-- The 503 response of every `except requests.RequestException` branch. -/
def backendUnreachable (cause : String) : FlaskResponse :=
  FlaskResponse.payload 503
    (HttpBody.json (Json.obj
      [("error", Json.str "Backend not reachable"),
       ("details", Json.str cause)]))

/-- The passthrough of every forwarding handler's tail:
`jsonify(backend_res.json()), backend_res.status_code` when the body parses
as JSON, else `backend_res.text, backend_res.status_code`. -/
def passthrough (r : HttpResponse) : FlaskResponse :=
  match r.body with
  | HttpBody.json j => FlaskResponse.payload r.status (HttpBody.json j)
  | HttpBody.text t => FlaskResponse.payload r.status (HttpBody.text t)

/-- `POST /client/patient/create` (`create_patient` in `app.py`). -/
def create_patient (payload : List (String × Json)) (recordId now : String)
    (s : Session) (b : BackendResult) : FlaskResponse × List BackendCall :=
  let missing := missingFields payload
  if missing.isEmpty = false then
    (FlaskResponse.payload 400
      (HttpBody.json (Json.obj
        [("message", Json.str "Missing required data"),
         ("missing", Json.arr (missing.map Json.str))])), [])
  else
    let call : BackendCall :=
      { method := "POST"
        url := EHR_BASE_URL ++ "/patients"
        headers := auth_headers s
        body := some (patient_information payload recordId now) }
    match b with
    | BackendResult.unreachable cause => (backendUnreachable cause, [call])
    | BackendResult.ok r => (passthrough r, [call])

/-- `GET /client/patient/<patient_id>` (`read_patient_data` in `app.py`). -/
def read_patient_data (patient_id : String) (s : Session) (b : BackendResult) :
    FlaskResponse × List BackendCall :=
  if patient_id = "" then
    (FlaskResponse.payload 400
      (HttpBody.json (Json.obj [("message", Json.str "patient_id is required")])), [])
  else
    let call : BackendCall :=
      { method := "GET"
        url := EHR_BASE_URL ++ "/patients/" ++ patient_id
        headers := auth_headers s
        body := none }
    match b with
    | BackendResult.unreachable cause => (backendUnreachable cause, [call])
    | BackendResult.ok r => (passthrough r, [call])

/-- `not isinstance(data, dict) or len(data) == 0`, negated: `data` is a
mapping with at least one key. -/
def dataNonEmptyObj : Json → Bool
  | Json.obj kvs => !kvs.isEmpty
  | _ => false

/-- `PUT /client/patient/update` (`update_patient` in `app.py`). -/
def update_patient (payload : List (String × Json)) (s : Session)
    (b : BackendResult) : FlaskResponse × List BackendCall :=
  let patient_id := jsonGet payload "patient_id"
  let data := (jsonGet payload "data").getD (Json.obj [])
  if optPyFalsy patient_id then
    (FlaskResponse.payload 400
      (HttpBody.json (Json.obj [("error", Json.str "patient_id is required")])), [])
  else if dataNonEmptyObj data = false then
    (FlaskResponse.payload 400
      (HttpBody.json (Json.obj
        [("error", Json.str "data must be a non-empty JSON object")])), [])
  else
    let call : BackendCall :=
      { method := "PUT"
        url := EHR_BASE_URL ++ "/patients/" ++ pyStr (patient_id.getD Json.null)
        headers := auth_headers s
        body := some data }
    match b with
    | BackendResult.unreachable cause => (backendUnreachable cause, [call])
    | BackendResult.ok r => (passthrough r, [call])

/-- `DELETE /client/patient/delete/<patient_id>` (`delete_patient` in
`app.py`): note the source performs no validation of `patient_id` before
forwarding. -/
def delete_patient (patient_id : String) (s : Session) (b : BackendResult) :
    FlaskResponse × List BackendCall :=
  let call : BackendCall :=
    { method := "DELETE"
      url := EHR_BASE_URL ++ "/patients/" ++ patient_id
      headers := auth_headers s
      body := none }
  match b with
  | BackendResult.unreachable cause => (backendUnreachable cause, [call])
  | BackendResult.ok r => (passthrough r, [call])

/-- Python truthiness of a `request.form.get(...)` result: `None` (absent
field) and the empty string are falsy. -/
def formFalsy : Option String → Bool
  | none => true
  | some s => s == ""

/-- Everything a run of the login POST handler produces: the response, the
session it leaves behind, the flashed messages, and the backend calls. -/
structure LoginResult where
  response : FlaskResponse
  session : Session
  flashes : List String
  backendCalls : List BackendCall

/-- The POST branch of `/login` (`login_page` in `app.py`; the GET branch
only renders a template and is out of scope). `username` and `password`
are the `request.form.get` results; `b` is the outcome of the
`requests.post` to `\x7bEHR_BASE_URL\x7d/auth/login` if one is issued. -/
def login_page_post (username password : Option String) (s : Session)
    (b : BackendResult) : LoginResult :=
  if formFalsy username || formFalsy password then
    { response := redirectEndpoint "login_page"
      session := s
      flashes := ["Username and password required"]
      backendCalls := [] }
  else
    let call : BackendCall :=
      { method := "POST"
        url := EHR_BASE_URL ++ "/auth/login"
        headers := []
        body := some (Json.obj
          [("username", Json.str (username.getD "")),
           ("password", Json.str (password.getD ""))]) }
    match b with
    | BackendResult.unreachable _ =>
        { response := redirectEndpoint "login_page"
          session := s
          flashes := ["Authentication service unavailable"]
          backendCalls := [call] }
    | BackendResult.ok r =>
        if r.status ≠ 200 then
          { response := redirectEndpoint "login_page"
            session := s
            flashes := ["Invalid username or password"]
            backendCalls := [call] }
        else
          match r.body with
          | HttpBody.text _ =>
              { response := FlaskResponse.uncaughtError "ValueError: body is not JSON"
                session := s
                flashes := []
                backendCalls := [call] }
          | HttpBody.json (Json.obj kvs) =>
              match jsonGet kvs "access_token" with
              | none =>
                  { response := FlaskResponse.uncaughtError "KeyError: access_token"
                    session := s
                    flashes := []
                    backendCalls := [call] }
              | some tok =>
                  { response := redirectEndpoint "home"
                    session := { access_token := some tok
                                 role := some ((jsonGet kvs "role").getD Json.null) }
                    flashes := []
                    backendCalls := [call] }
          | HttpBody.json _ =>
              { response := FlaskResponse.uncaughtError "TypeError: body is not a JSON object"
                session := s
                flashes := []
                backendCalls := [call] }

/-- `GET /logout` (`logout` in `app.py`): `session.clear()` then
`redirect(url_for("login_page"))`. -/
def logout (_s : Session) : FlaskResponse × Session :=
  (redirectEndpoint "login_page", Session.empty)

/-- How a `requests.*` call site supplies its `headers` argument. -/
inductive HeadersArg where
  | evaluated
  | functionObject
deriving DecidableEq

/-- One outbound `requests.*` call site of `app.py`: the enclosing handler,
HTTP method, request path, and how the `headers` argument is supplied
(`some .evaluated` for `headers=auth_headers()`, `some .functionObject` for
`headers=auth_headers` without the call, `none` when no `headers` argument
is passed at all). -/
structure OutboundCallSite where
  caller : String
  method : String
  path : String
  headersArg : Option HeadersArg
deriving DecidableEq

/-- All ten outbound `requests.*` call sites of `app.py`, in source order. -/
def outboundCallSites : List OutboundCallSite :=
  [{ caller := "create_patient", method := "POST", path := "/patients",
     headersArg := some HeadersArg.evaluated },
   { caller := "read_patient_data", method := "GET", path := "/patients/<patient_id>",
     headersArg := some HeadersArg.evaluated },
   { caller := "update_patient", method := "PUT", path := "/patients/<patient_id>",
     headersArg := some HeadersArg.evaluated },
   { caller := "delete_patient", method := "DELETE", path := "/patients/<patient_id>",
     headersArg := some HeadersArg.evaluated },
   { caller := "login_page", method := "POST", path := "/auth/login",
     headersArg := none },
   { caller := "doctor_page", method := "GET", path := "/client/patient/<patient_id>",
     headersArg := some HeadersArg.evaluated },
   { caller := "doctor_create_patient", method := "POST", path := "/client/patient/create",
     headersArg := some HeadersArg.evaluated },
   { caller := "doctor_update_patient", method := "PUT", path := "/client/patient/update",
     headersArg := some HeadersArg.functionObject },
   { caller := "patient_page", method := "GET", path := "/client/patient/<patient_id>",
     headersArg := some HeadersArg.evaluated },
   { caller := "patient_update", method := "PUT", path := "/client/patient/update",
     headersArg := some HeadersArg.evaluated }]

/-- The Authorization header value a call site attaches, given the session:
an evaluated `auth_headers()` contributes its Authorization entry; passing
the function object itself attaches no Authorization header derived from
the credential; a call without a `headers` argument sends none either. -/
def sentAuthorization (s : Session) (c : OutboundCallSite) : Option String :=
  match c.headersArg with
  | some HeadersArg.evaluated =>
      ((auth_headers s).find? (fun kv => kv.1 == "Authorization")).map Prod.snd
  | some HeadersArg.functionObject => none
  | none => none

/-! Helper lemmas shared by the claim theorems. -/

lemma passthrough_eq (r : HttpResponse) :
    passthrough r = FlaskResponse.payload r.status r.body := by
  cases r with
  | mk st bd => cases bd <;> rfl

lemma url_for_login : url_for "login" = none := rfl

lemma url_for_login_page : url_for "login_page" = some "/login" := rfl

lemma redirectEndpoint_login_page :
    redirectEndpoint "login_page" = FlaskResponse.redirect "/login" := rfl

lemma redirectEndpoint_home : redirectEndpoint "home" = FlaskResponse.redirect "/" := rfl

lemma missingFields_eq_nil_iff (p : List (String × Json)) :
    missingFields p = [] ↔
      (fieldMissingOrEmpty p "patient_id" || fieldMissingOrEmpty p "name"
        || fieldMissingOrEmpty p "birth_date") = false := by
  cases h1 : fieldMissingOrEmpty p "patient_id" <;>
    cases h2 : fieldMissingOrEmpty p "name" <;>
      cases h3 : fieldMissingOrEmpty p "birth_date" <;>
        simp [missingFields, requiredFields, List.filter_cons, h1, h2, h3]

lemma dataNonEmptyObj_eq_true_iff (j : Json) :
    dataNonEmptyObj j = true ↔ ∃ kvs, j = Json.obj kvs ∧ kvs ≠ [] := by
  cases j <;> simp [dataNonEmptyObj]

/-- C1: with no `access_token` in the session, the guard does not invoke the
wrapped handler, but its response is not a redirect to the login page: since
no endpoint named `login` is registered (the login view's endpoint is
`login_page`), `url_for("login")` raises `BuildError`, which surfaces as a
500 Internal Server Error. In particular, right after `logout` (which
clears the session and redirects to `/login`) a guarded route produces that
error instead of redirecting to the login page. -/
theorem C1_guard_without_token_raises_buildError
    (f : Session → FlaskResponse × List BackendCall) (s : Session) :
    login_required f Session.empty
      = (FlaskResponse.uncaughtError "BuildError: login", [])
  ∧ url_for "login" = none
  ∧ logout s = (FlaskResponse.redirect "/login", Session.empty)
  ∧ (login_required f (logout s).2).1 ≠ FlaskResponse.redirect "/login"
  ∧ FlaskResponse.statusCode (login_required f (logout s).2).1 = 500 := by
  refine ⟨rfl, rfl, rfl, ?_, rfl⟩
  intro h
  exact FlaskResponse.noConfusion h

/-- C2 counterexample: a delete request with an empty `patient_id` is not
answered with a 400 and does not avoid the backend: with a backend
answering 200, `delete_patient ""` issues one backend call and passes the
backend's 200 through. -/
theorem C2_delete_empty_id_counterexample :
    ¬ (FlaskResponse.statusCode
          (delete_patient "" Session.empty
            (BackendResult.ok { status := 200, body := HttpBody.json (Json.obj []) })).1 = 400
      ∧ ((delete_patient "" Session.empty
            (BackendResult.ok { status := 200, body := HttpBody.json (Json.obj []) })).2).length = 0) := by
  decide

/-- C2 amended: a read request with an empty `patient_id` is answered with
400 and no backend call, the validation happening before any backend
request is constructed; `delete_patient`, however, performs no `patient_id`
validation at all and always issues exactly one backend call, an empty
`patient_id` included. -/
theorem C2_read_validates_delete_forwards (s : Session) (b : BackendResult)
    (pid : String) :
    read_patient_data "" s b
      = (FlaskResponse.payload 400
          (HttpBody.json (Json.obj [("message", Json.str "patient_id is required")])), [])
  ∧ ((delete_patient pid s b).2).length = 1 := by
  refine ⟨rfl, ?_⟩
  cases b <;> rfl

/-- C3: a create request in which `patient_id`, `name` or `birth_date` is
absent, `None` or the empty string is answered with 400 and no backend call
is issued; when all three are present and non-empty the validation passes
and exactly one backend call is made. -/
theorem C3_create_validation (p : List (String × Json)) (recordId now : String)
    (s : Session) (b : BackendResult) :
    ((fieldMissingOrEmpty p "patient_id" || fieldMissingOrEmpty p "name"
        || fieldMissingOrEmpty p "birth_date") = true →
      FlaskResponse.statusCode (create_patient p recordId now s b).1 = 400
      ∧ (create_patient p recordId now s b).2 = [])
  ∧ ((fieldMissingOrEmpty p "patient_id" || fieldMissingOrEmpty p "name"
        || fieldMissingOrEmpty p "birth_date") = false →
      ((create_patient p recordId now s b).2).length = 1) := by
  constructor
  · intro h
    have hm : (missingFields p).isEmpty = false := by
      cases hmf : missingFields p with
      | nil =>
          exact absurd ((missingFields_eq_nil_iff p).mp hmf) (by simp [h])
      | cons a l => rfl
    simp [create_patient, hm, FlaskResponse.statusCode]
  · intro h
    have hm : missingFields p = [] := (missingFields_eq_nil_iff p).mpr h
    cases b <;> simp [create_patient, hm]

/-- C3 witness: a payload missing `patient_id` and `birth_date` is rejected
with 400 and no call; a complete payload leads to exactly one call. -/
theorem C3_create_validation_witness :
    (FlaskResponse.statusCode
        (create_patient [("name", Json.str "Ada")] "r1" "t1" Session.empty
          (BackendResult.ok { status := 201, body := HttpBody.json (Json.obj []) })).1 = 400
      ∧ (create_patient [("name", Json.str "Ada")] "r1" "t1" Session.empty
          (BackendResult.ok { status := 201, body := HttpBody.json (Json.obj []) })).2 = [])
  ∧ ((create_patient
        [("patient_id", Json.str "p1"), ("name", Json.str "Ada"),
         ("birth_date", Json.str "1990-01-01")] "r1" "t1" Session.empty
        (BackendResult.ok { status := 201, body := HttpBody.json (Json.obj []) })).2).length = 1 :=
  ⟨(C3_create_validation [("name", Json.str "Ada")] "r1" "t1" Session.empty
      (BackendResult.ok { status := 201, body := HttpBody.json (Json.obj []) })).1 (by rfl),
   (C3_create_validation
      [("patient_id", Json.str "p1"), ("name", Json.str "Ada"),
       ("birth_date", Json.str "1990-01-01")] "r1" "t1" Session.empty
      (BackendResult.ok { status := 201, body := HttpBody.json (Json.obj []) })).2 (by rfl)⟩

/-- C4: an update request whose `patient_id` is empty (absent, `None` or
the empty string) or whose `data` is not a mapping with at least one key is
answered with 400 and zero backend calls; conversely, whenever the request
reaches the backend, `data` is a mapping with at least one key. -/
theorem C4_update_validation (p : List (String × Json)) (s : Session)
    (b : BackendResult) :
    ((jsonGet p "patient_id" = none ∨ jsonGet p "patient_id" = some Json.null
        ∨ jsonGet p "patient_id" = some (Json.str "")
        ∨ dataNonEmptyObj ((jsonGet p "data").getD (Json.obj [])) = false) →
      FlaskResponse.statusCode (update_patient p s b).1 = 400
      ∧ (update_patient p s b).2 = [])
  ∧ (((update_patient p s b).2).length ≠ 0 →
      ∃ kvs, (jsonGet p "data").getD (Json.obj []) = Json.obj kvs ∧ kvs ≠ []) := by
  constructor
  · intro h
    rcases h with h | h | h | h
    · simp [update_patient, h, optPyFalsy, FlaskResponse.statusCode]
    · simp [update_patient, h, optPyFalsy, Json.pyFalsy, FlaskResponse.statusCode]
    · simp [update_patient, h, optPyFalsy, Json.pyFalsy, FlaskResponse.statusCode]
    · cases hf : optPyFalsy (jsonGet p "patient_id")
      · simp [update_patient, hf, h, FlaskResponse.statusCode]
      · simp [update_patient, hf, FlaskResponse.statusCode]
  · intro h
    cases hd : dataNonEmptyObj ((jsonGet p "data").getD (Json.obj [])) with
    | false =>
        exfalso
        apply h
        cases hf : optPyFalsy (jsonGet p "patient_id") <;>
          simp [update_patient, hf, hd]
    | true => exact (dataNonEmptyObj_eq_true_iff _).mp hd

/-- C4 witness: a payload without `patient_id` is rejected with 400 and no
call; a valid update payload reaches the backend with non-empty `data`. -/
theorem C4_update_validation_witness :
    (FlaskResponse.statusCode
        (update_patient [("data", Json.obj [("notes", Json.str "n")])] Session.empty
          (BackendResult.ok { status := 200, body := HttpBody.json (Json.obj []) })).1 = 400
      ∧ (update_patient [("data", Json.obj [("notes", Json.str "n")])] Session.empty
          (BackendResult.ok { status := 200, body := HttpBody.json (Json.obj []) })).2 = [])
  ∧ ∃ kvs,
      (jsonGet [("patient_id", Json.str "p1"), ("data", Json.obj [("notes", Json.str "n")])]
          "data").getD (Json.obj []) = Json.obj kvs ∧ kvs ≠ [] :=
  ⟨(C4_update_validation [("data", Json.obj [("notes", Json.str "n")])] Session.empty
      (BackendResult.ok { status := 200, body := HttpBody.json (Json.obj []) })).1
      (Or.inl rfl),
   (C4_update_validation
      [("patient_id", Json.str "p1"), ("data", Json.obj [("notes", Json.str "n")])]
      Session.empty
      (BackendResult.ok { status := 200, body := HttpBody.json (Json.obj []) })).2
      (by decide)⟩

/-- C5: whenever the backend responds (and the forwarding handler reached
the backend call), the backend's status code is preserved exactly and its
body — parsed JSON or raw text alike — is passed through unchanged, for all
four forwarding operations. -/
theorem C5_backend_passthrough (r : HttpResponse) (s : Session) (pid : String)
    (pc pu : List (String × Json)) (recordId now : String)
    (hpid : pid ≠ "")
    (hc : missingFields pc = [])
    (hu1 : optPyFalsy (jsonGet pu "patient_id") = false)
    (hu2 : dataNonEmptyObj ((jsonGet pu "data").getD (Json.obj [])) = true) :
    (read_patient_data pid s (BackendResult.ok r)).1
      = FlaskResponse.payload r.status r.body
  ∧ (delete_patient pid s (BackendResult.ok r)).1
      = FlaskResponse.payload r.status r.body
  ∧ (create_patient pc recordId now s (BackendResult.ok r)).1
      = FlaskResponse.payload r.status r.body
  ∧ (update_patient pu s (BackendResult.ok r)).1
      = FlaskResponse.payload r.status r.body := by
  refine ⟨?_, ?_, ?_, ?_⟩
  · simp [read_patient_data, hpid, passthrough_eq]
  · simp [delete_patient, passthrough_eq]
  · simp [create_patient, hc, passthrough_eq]
  · simp [update_patient, hu1, hu2, passthrough_eq]

/-- C5 witness: a non-JSON 500 backend body is passed through as raw text
with status 500 by all four operations on concrete valid inputs. -/
theorem C5_backend_passthrough_witness :
    (read_patient_data "p1" Session.empty
        (BackendResult.ok { status := 500, body := HttpBody.text "backend exploded" })).1
      = FlaskResponse.payload 500 (HttpBody.text "backend exploded")
  ∧ (delete_patient "p1" Session.empty
        (BackendResult.ok { status := 500, body := HttpBody.text "backend exploded" })).1
      = FlaskResponse.payload 500 (HttpBody.text "backend exploded")
  ∧ (create_patient
        [("patient_id", Json.str "p1"), ("name", Json.str "Ada"),
         ("birth_date", Json.str "1990-01-01")] "r1" "t1" Session.empty
        (BackendResult.ok { status := 500, body := HttpBody.text "backend exploded" })).1
      = FlaskResponse.payload 500 (HttpBody.text "backend exploded")
  ∧ (update_patient
        [("patient_id", Json.str "p1"), ("data", Json.obj [("notes", Json.str "n")])]
        Session.empty
        (BackendResult.ok { status := 500, body := HttpBody.text "backend exploded" })).1
      = FlaskResponse.payload 500 (HttpBody.text "backend exploded") :=
  C5_backend_passthrough { status := 500, body := HttpBody.text "backend exploded" }
    Session.empty "p1"
    [("patient_id", Json.str "p1"), ("name", Json.str "Ada"),
     ("birth_date", Json.str "1990-01-01")]
    [("patient_id", Json.str "p1"), ("data", Json.obj [("notes", Json.str "n")])]
    "r1" "t1" (by decide) (by rfl) (by rfl) (by rfl)

/-- C6: whenever the backend call of a forwarding operation raises a
connection failure or timeout, the reply is the JSON object
`\x7b"error": "Backend not reachable", "details": cause\x7d` with status 503,
for all four forwarding operations. -/
theorem C6_backend_unreachable (cause : String) (s : Session) (pid : String)
    (pc pu : List (String × Json)) (recordId now : String)
    (hpid : pid ≠ "")
    (hc : missingFields pc = [])
    (hu1 : optPyFalsy (jsonGet pu "patient_id") = false)
    (hu2 : dataNonEmptyObj ((jsonGet pu "data").getD (Json.obj [])) = true) :
    (create_patient pc recordId now s (BackendResult.unreachable cause)).1
      = backendUnreachable cause
  ∧ (read_patient_data pid s (BackendResult.unreachable cause)).1
      = backendUnreachable cause
  ∧ (update_patient pu s (BackendResult.unreachable cause)).1
      = backendUnreachable cause
  ∧ (delete_patient pid s (BackendResult.unreachable cause)).1
      = backendUnreachable cause
  ∧ backendUnreachable cause
      = FlaskResponse.payload 503
          (HttpBody.json (Json.obj
            [("error", Json.str "Backend not reachable"),
             ("details", Json.str cause)])) := by
  refine ⟨?_, ?_, ?_, ?_, rfl⟩
  · simp [create_patient, hc]
  · simp [read_patient_data, hpid]
  · simp [update_patient, hu1, hu2]
  · simp [delete_patient]

/-- C6 witness: with a concrete unreachable backend, all four operations
answer 503 with the "Backend not reachable" error object. -/
theorem C6_backend_unreachable_witness :
    (create_patient
        [("patient_id", Json.str "p1"), ("name", Json.str "Ada"),
         ("birth_date", Json.str "1990-01-01")] "r1" "t1" Session.empty
        (BackendResult.unreachable "connection refused")).1
      = backendUnreachable "connection refused"
  ∧ (read_patient_data "p1" Session.empty
        (BackendResult.unreachable "connection refused")).1
      = backendUnreachable "connection refused"
  ∧ (update_patient
        [("patient_id", Json.str "p1"), ("data", Json.obj [("notes", Json.str "n")])]
        Session.empty (BackendResult.unreachable "connection refused")).1
      = backendUnreachable "connection refused"
  ∧ (delete_patient "p1" Session.empty
        (BackendResult.unreachable "connection refused")).1
      = backendUnreachable "connection refused"
  ∧ backendUnreachable "connection refused"
      = FlaskResponse.payload 503
          (HttpBody.json (Json.obj
            [("error", Json.str "Backend not reachable"),
             ("details", Json.str "connection refused")])) :=
  C6_backend_unreachable "connection refused" Session.empty "p1"
    [("patient_id", Json.str "p1"), ("name", Json.str "Ada"),
     ("birth_date", Json.str "1990-01-01")]
    [("patient_id", Json.str "p1"), ("data", Json.obj [("notes", Json.str "n")])]
    "r1" "t1" (by decide) (by rfl) (by rfl) (by rfl)

/-- C7: `auth_headers` returns exactly the singleton
`\x7b"Authorization": "Bearer " + token\x7d` when the session holds a non-empty
token string, and the empty header set when the token is absent or empty;
being a total function of the session, it never throws. -/
theorem C7_auth_headers_exact (s : Session) :
    (∀ t : String, s.access_token = some (Json.str t) → t ≠ "" →
        auth_headers s = [("Authorization", "Bearer " ++ t)])
  ∧ (s.access_token = none → auth_headers s = [])
  ∧ (s.access_token = some (Json.str "") → auth_headers s = []) := by
  refine ⟨?_, ?_, ?_⟩
  · intro t ht hne
    simp [auth_headers, ht, Json.pyFalsy, pyStr, hne]
  · intro h
    simp [auth_headers, h]
  · intro h
    simp [auth_headers, h, Json.pyFalsy]

/-- C7 witness: concrete sessions with token "tok123", with no token, and
with an empty token. -/
theorem C7_auth_headers_witness :
    auth_headers { access_token := some (Json.str "tok123"), role := none }
      = [("Authorization", "Bearer " ++ "tok123")]
  ∧ auth_headers Session.empty = []
  ∧ auth_headers { access_token := some (Json.str ""), role := none } = [] :=
  ⟨(C7_auth_headers_exact
      { access_token := some (Json.str "tok123"), role := none }).1
      "tok123" rfl (by decide),
   (C7_auth_headers_exact Session.empty).2.1 rfl,
   (C7_auth_headers_exact
      { access_token := some (Json.str ""), role := none }).2.2 rfl⟩

/-- C8: a login submission with an empty username or password is rejected
locally with no backend call; a non-200 backend answer stores no credential
and flashes only the generic "Invalid username or password"; a 200 answer
whose JSON object carries `access_token` stores that token (and the
optional role) in the session — and the session changes only on a 200. -/
theorem C8_login_flow (u pw : Option String) (s : Session) (b : BackendResult) :
    ((formFalsy u || formFalsy pw) = true →
        (login_page_post u pw s b).backendCalls = []
      ∧ (login_page_post u pw s b).response = FlaskResponse.redirect "/login")
  ∧ (∀ r, (formFalsy u || formFalsy pw) = false → b = BackendResult.ok r →
      r.status ≠ 200 →
        (login_page_post u pw s b).session = s
      ∧ (login_page_post u pw s b).flashes = ["Invalid username or password"]
      ∧ (login_page_post u pw s b).response = FlaskResponse.redirect "/login")
  ∧ (∀ r kvs tok, (formFalsy u || formFalsy pw) = false → b = BackendResult.ok r →
      r.status = 200 → r.body = HttpBody.json (Json.obj kvs) →
      jsonGet kvs "access_token" = some tok →
        (login_page_post u pw s b).session
          = { access_token := some tok
              role := some ((jsonGet kvs "role").getD Json.null) })
  ∧ ((login_page_post u pw s b).session = s
      ∨ ∃ r, b = BackendResult.ok r ∧ r.status = 200) := by
  refine ⟨?_, ?_, ?_, ?_⟩
  · intro h
    simp [login_page_post, h, redirectEndpoint_login_page]
  · intro r h hb hs
    subst hb
    simp [login_page_post, h, hs, redirectEndpoint_login_page]
  · intro r kvs tok h hb hs hbody htok
    subst hb
    simp [login_page_post, h, hs, hbody, htok]
  · cases hfb : (formFalsy u || formFalsy pw) with
    | true => exact Or.inl (by simp [login_page_post, hfb])
    | false =>
      cases b with
      | unreachable c => exact Or.inl (by simp [login_page_post, hfb])
      | ok r =>
        by_cases hs : r.status = 200
        · exact Or.inr ⟨r, rfl, hs⟩
        · exact Or.inl (by simp [login_page_post, hfb, hs])

/-- C8 witness: a missing username is rejected locally; a concrete 401
answer leaves the session unchanged with the generic flash; a concrete 200
answer with token "tok123" stores the credential. -/
theorem C8_login_flow_witness :
    ((login_page_post none (some "pw") Session.empty
        (BackendResult.ok { status := 200, body := HttpBody.json (Json.obj []) })).backendCalls = []
      ∧ (login_page_post none (some "pw") Session.empty
          (BackendResult.ok { status := 200, body := HttpBody.json (Json.obj []) })).response
        = FlaskResponse.redirect "/login")
  ∧ ((login_page_post (some "alice") (some "pw") Session.empty
        (BackendResult.ok { status := 401, body := HttpBody.text "denied" })).session
        = Session.empty
      ∧ (login_page_post (some "alice") (some "pw") Session.empty
          (BackendResult.ok { status := 401, body := HttpBody.text "denied" })).flashes
        = ["Invalid username or password"]
      ∧ (login_page_post (some "alice") (some "pw") Session.empty
          (BackendResult.ok { status := 401, body := HttpBody.text "denied" })).response
        = FlaskResponse.redirect "/login")
  ∧ (login_page_post (some "alice") (some "pw") Session.empty
        (BackendResult.ok
          { status := 200
            body := HttpBody.json (Json.obj [("access_token", Json.str "tok123")]) })).session
      = { access_token := some (Json.str "tok123")
          role := some ((jsonGet [("access_token", Json.str "tok123")] "role").getD Json.null) } :=
  ⟨(C8_login_flow none (some "pw") Session.empty
      (BackendResult.ok { status := 200, body := HttpBody.json (Json.obj []) })).1 rfl,
   (C8_login_flow (some "alice") (some "pw") Session.empty
      (BackendResult.ok { status := 401, body := HttpBody.text "denied" })).2.1
      { status := 401, body := HttpBody.text "denied" } rfl rfl (by decide),
   (C8_login_flow (some "alice") (some "pw") Session.empty
      (BackendResult.ok
        { status := 200
          body := HttpBody.json (Json.obj [("access_token", Json.str "tok123")]) })).2.2.1
      { status := 200
        body := HttpBody.json (Json.obj [("access_token", Json.str "tok123")]) }
      [("access_token", Json.str "tok123")] (Json.str "tok123") rfl rfl rfl rfl rfl⟩

/-- C9 counterexample to the claim as stated: the `login_page` call site is
an outbound call site that attaches neither the auth-header function object
nor the evaluated accessor result — it passes no `headers` argument
at all. -/
theorem C9_login_site_counterexample :
    ({ caller := "login_page", method := "POST", path := "/auth/login",
       headersArg := none } : OutboundCallSite) ∈ outboundCallSites
  ∧ ({ caller := "login_page", method := "POST", path := "/auth/login",
       headersArg := none } : OutboundCallSite).headersArg
      ≠ some HeadersArg.functionObject
  ∧ ({ caller := "login_page", method := "POST", path := "/auth/login",
       headersArg := none } : OutboundCallSite).headersArg
      ≠ some HeadersArg.evaluated := by
  decide

/-- C9 amended: exactly one outbound call site — the one in
`doctor_update_patient` — attaches the auth-header function object itself
as the request headers; every other call site that passes a `headers`
argument attaches the evaluated `auth_headers()` result, the sole exception
being the login call, which passes no headers at all; and the
function-object site carries no Authorization header derived from the
stored credential, whatever the session holds. -/
theorem C9_single_function_object_call_site (s : Session) :
    ((outboundCallSites.filter
        (fun c => decide (c.headersArg = some HeadersArg.functionObject))).map
          OutboundCallSite.caller) = ["doctor_update_patient"]
  ∧ ((outboundCallSites.filter
        (fun c => decide (c.headersArg = some HeadersArg.evaluated))).map
          OutboundCallSite.caller)
      = ["create_patient", "read_patient_data", "update_patient", "delete_patient",
         "doctor_page", "doctor_create_patient", "patient_page", "patient_update"]
  ∧ ((outboundCallSites.filter
        (fun c => decide (c.headersArg = (none : Option HeadersArg)))).map
          OutboundCallSite.caller) = ["login_page"]
  ∧ (∀ c, c ∈ outboundCallSites → c.headersArg = some HeadersArg.functionObject →
        sentAuthorization s c = none) := by
  refine ⟨by decide, by decide, by decide, ?_⟩
  intro c hc harg
  simp [sentAuthorization, harg]

/-- C9 witness: with a concrete logged-in session, the
`doctor_update_patient` call site sends no Authorization header even though
the credential is present. -/
theorem C9_single_function_object_call_site_witness :
    ((outboundCallSites.filter
        (fun c => decide (c.headersArg = some HeadersArg.functionObject))).map
          OutboundCallSite.caller) = ["doctor_update_patient"]
  ∧ sentAuthorization { access_token := some (Json.str "tok123"), role := none }
      { caller := "doctor_update_patient", method := "PUT",
        path := "/client/patient/update",
        headersArg := some HeadersArg.functionObject } = none :=
  ⟨(C9_single_function_object_call_site
      { access_token := some (Json.str "tok123"), role := none }).1,
   (C9_single_function_object_call_site
      { access_token := some (Json.str "tok123"), role := none }).2.2.2
      { caller := "doctor_update_patient", method := "PUT",
        path := "/client/patient/update",
        headersArg := some HeadersArg.functionObject } (by decide) rfl⟩

/-- C10: a failed login attempt — empty username or password, unreachable
backend, or a non-200 backend answer — leaves the session exactly as it
was: an earlier credential is neither cleared nor overwritten. -/
theorem C10_failed_login_preserves_session (u pw : Option String) (s : Session)
    (b : BackendResult) :
    ((formFalsy u || formFalsy pw) = true → (login_page_post u pw s b).session = s)
  ∧ (∀ c, b = BackendResult.unreachable c → (login_page_post u pw s b).session = s)
  ∧ (∀ r, b = BackendResult.ok r → r.status ≠ 200 →
      (login_page_post u pw s b).session = s) := by
  refine ⟨?_, ?_, ?_⟩
  · intro h
    simp [login_page_post, h]
  · intro c hb
    subst hb
    cases hfb : (formFalsy u || formFalsy pw) <;> simp [login_page_post, hfb]
  · intro r hb hs
    subst hb
    cases hfb : (formFalsy u || formFalsy pw) <;> simp [login_page_post, hfb, hs]

/-- C10 witness: with a previously stored credential, a submission with a
missing password, one against an unreachable backend, and one answered 401
all leave the stored credential untouched. -/
theorem C10_failed_login_preserves_session_witness :
    (login_page_post (some "alice") none
        { access_token := some (Json.str "old-token"), role := some (Json.str "doctor") }
        (BackendResult.ok { status := 200, body := HttpBody.json (Json.obj []) })).session
      = { access_token := some (Json.str "old-token"), role := some (Json.str "doctor") }
  ∧ (login_page_post (some "alice") (some "pw")
        { access_token := some (Json.str "old-token"), role := some (Json.str "doctor") }
        (BackendResult.unreachable "connection refused")).session
      = { access_token := some (Json.str "old-token"), role := some (Json.str "doctor") }
  ∧ (login_page_post (some "alice") (some "pw")
        { access_token := some (Json.str "old-token"), role := some (Json.str "doctor") }
        (BackendResult.ok { status := 401, body := HttpBody.text "denied" })).session
      = { access_token := some (Json.str "old-token"), role := some (Json.str "doctor") } :=
  ⟨(C10_failed_login_preserves_session (some "alice") none
      { access_token := some (Json.str "old-token"), role := some (Json.str "doctor") }
      (BackendResult.ok { status := 200, body := HttpBody.json (Json.obj []) })).1 rfl,
   (C10_failed_login_preserves_session (some "alice") (some "pw")
      { access_token := some (Json.str "old-token"), role := some (Json.str "doctor") }
      (BackendResult.unreachable "connection refused")).2.1 "connection refused" rfl,
   (C10_failed_login_preserves_session (some "alice") (some "pw")
      { access_token := some (Json.str "old-token"), role := some (Json.str "doctor") }
      (BackendResult.ok { status := 401, body := HttpBody.text "denied" })).2.2
      { status := 401, body := HttpBody.text "denied" } rfl (by decide)⟩

end EhrUi
